import Mathlib

/-!
# Verification of `src/strategies/pair_trading.py`

Shallow embedding, in Lean 4, of the cointegration-based pair-trading strategy
(`PairTradingStrategyConfig`, `PairTradingStrategy`).  Python floats are
modelled as exact rationals (`ℚ`); Python dicts (insertion-ordered) as
association lists; Python exceptions as `Except String`; the external
`nautilus_trader` cache / account / order factory and the `statsmodels`
Johansen test as explicit inputs (`BarEnv`): per-bar-type close-price history,
the open-position flag, the account equity, and the Johansen leading
eigenvector (`Except`-valued, since `coint_johansen` may raise).

The only numerical operation that leaves ℚ is the square root inside
`np.std`.  The code uses the standard deviation in exactly two ways:
the guard `std_spread == 0` (true iff the Bessel-corrected sample
variance is 0, since `std = sqrt(variance)` and `sqrt v = 0 ↔ v = 0`
for `v ≥ 0`), embedded here as `sampleVar … = 0`; and as the z-score
denominator, embedded by passing an explicit square-root function
`sqrtQ : ℚ → ℚ` to `on_bar` — no claim depends on the numeric value of a
nonzero standard deviation.
-/

namespace PairTrading

/-- Opaque instrument handle (`InstrumentId`). -/
abbrev InstrumentId := String

/-- Opaque bar-type handle (`BarType`). -/
abbrev BarType := String

/-- `OrderSide` from `nautilus_trader` (only BUY/SELL are used). -/
inductive OrderSide where
  | BUY
  | SELL
deriving DecidableEq, Repr

/-- `PairTradingStrategyConfig` (lines 17–27): plain frozen field container,
default `formation_window=200`, `zscore_threshold=2.0`,
`exit_zscore_threshold=0.5`, `capital_to_risk_ratio=0.01`. -/
structure PairTradingStrategyConfig where
  instrument_id_1 : InstrumentId
  instrument_id_2 : InstrumentId
  bar_type : List (InstrumentId × BarType)
  formation_window : Nat := 200
  zscore_threshold : ℚ := 2
  exit_zscore_threshold : ℚ := 1/2
  capital_to_risk_ratio : ℚ := 1/100
deriving DecidableEq, Repr

/-- Construction of `PairTradingStrategyConfig` (lines 17–27).  The class body
consists of field declarations and defaults only — there is no validator of
any kind (no `__post_init__`, no threshold check), so construction always
succeeds.  The result type is `Except` only so that the *claim* "construction
fails with a configuration error" is statable; the body never produces
`.error`. -/
def mkPairTradingStrategyConfig (id1 id2 : InstrumentId)
    (bt : List (InstrumentId × BarType)) (formation_window : Nat)
    (zscore_threshold exit_zscore_threshold capital_to_risk_frac : ℚ) :
    Except String PairTradingStrategyConfig :=
  .ok { instrument_id_1 := id1
        instrument_id_2 := id2
        bar_type := bt
        formation_window := formation_window
        zscore_threshold := zscore_threshold
        exit_zscore_threshold := exit_zscore_threshold
        capital_to_risk_ratio := capital_to_risk_frac }

/-- An order submitted through `order_factory.market(instrument_id, side, qty)`
(line 140). -/
structure Order where
  instrument_id : InstrumentId
  side : OrderSide
  quantity : ℚ
deriving DecidableEq, Repr

/-- One row of the diagnostic DataFrame `calc_pd` (lines 82–91).  The first
two entries are the cached `Bar` objects (possibly `None`), modelled by their
close price; the remaining four are floats. -/
structure DiagRow where
  price_1 : Option ℚ
  price_2 : Option ℚ
  beta_1 : ℚ
  beta_2 : ℚ
  spread : ℚ
  z_score : ℚ
deriving DecidableEq, Repr

/-- The column names declared for `calc_pd` (lines 42–44). -/
def calc_pd_columns (cfg : PairTradingStrategyConfig) : List String :=
  ["price_" ++ cfg.instrument_id_1, "price_" ++ cfg.instrument_id_2,
   "beta_" ++ cfg.instrument_id_1, "beta_" ++ cfg.instrument_id_2,
   "spread", "z_score"]

/-- Mutable state of a `PairTradingStrategy` instance (lines 35–44). -/
structure StratState where
  spread : List ℚ
  betas : List (InstrumentId × ℚ)
  calc_pd : List DiagRow
deriving DecidableEq, Repr

/-- `__init__` (lines 35–44): empty spread deque, betas
`{id_1: 1.0, id_2: -1.0}`, empty diagnostic frame.  (The two instrument ids
are distinct in any well-formed pair configuration.) -/
def strategy_init (cfg : PairTradingStrategyConfig) : StratState :=
  { spread := []
    betas := [(cfg.instrument_id_1, 1), (cfg.instrument_id_2, -1)]
    calc_pd := [] }

/-- External inputs consumed by one `on_bar` call: the cache's close-price
history per bar type (oldest first, most recent last, so `cache.bar(bt)` /
`cache.bar(bt, 0)` is the last element), the result of
`coint_johansen(...).evec[:, 0]` on this bar's data (`.error` when the call
raises), the open-position flag, the account equity, and the value of the
`instrument1.maquantity` attribute read on line 140. -/
structure BarEnv where
  bars : BarType → List ℚ
  johansen : Except String (List ℚ)
  hasOpen : Bool
  equity : ℚ
  maquantity : ℚ

/-- Everything one `on_bar` call emits to the outside world: market orders
submitted, whether `_close_all_positions` ran, the z-score (if one was
computed this bar), and log lines. -/
structure BarOutput where
  orders : List Order := []
  closedAll : Bool := false
  zScore : Option ℚ := none
  logs : List String := []
deriving DecidableEq, Repr

/-- Python dict read `d.get(k, default)` / `d[k]`: first matching key. -/
def dictGet? {α β : Type} [DecidableEq α] : List (α × β) → α → Option β
  | [], _ => none
  | p :: rest, k => if p.1 = k then some p.2 else dictGet? rest k

/-- Python dict read `d[k]`: raises `KeyError` when the key is absent. -/
def dictGetE {α β : Type} [DecidableEq α] (d : List (α × β)) (k : α) :
    Except String β :=
  match dictGet? d k with
  | some v => .ok v
  | none => .error "KeyError"

/-- Python dict write `d[k] = v`: replace in place when the key exists
(insertion order kept), append otherwise. -/
def dictSet {α β : Type} [DecidableEq α] (d : List (α × β)) (k : α) (v : β) :
    List (α × β) :=
  if (dictGet? d k).isSome then
    d.map (fun p => if p.1 = k then (k, v) else p)
  else
    d ++ [(k, v)]

/-- `deque(maxlen=W).append(x)`: append, evicting from the left at capacity. -/
def dequeAppend (w : Nat) (xs : List ℚ) (x : ℚ) : List ℚ :=
  let ys := xs ++ [x]
  if w < ys.length then ys.drop (ys.length - w) else ys

/-- `np.mean` over a list of rationals. -/
def listMean (xs : List ℚ) : ℚ :=
  (xs.foldl (· + ·) 0) / xs.length

/-- The square of `np.std(xs, ddof=1)`: Bessel-corrected sample variance,
divisor `len - 1`.  `np.std` itself is its square root, so the code's guard
`std_spread == 0` holds exactly when `sampleVar = 0`. -/
def sampleVar (xs : List ℚ) : ℚ :=
  ((xs.map (fun x => (x - listMean xs) ^ 2)).foldl (· + ·) 0) /
    ((xs.length : ℚ) - 1)

/-- `_has_enough_bars` (lines 147–152): `False` iff some configured bar type
has fewer than `formation_window` cached bars. -/
def has_enough_bars (cfg : PairTradingStrategyConfig)
    (bars : BarType → List ℚ) : Bool :=
  cfg.bar_type.all (fun p => cfg.formation_window ≤ (bars p.2).length)

/-- The assignment loop of `_update_betas` (lines 106–107):
`for i, instrument_id in enumerate(df_prices.columns): betas[instrument_id] =
betas_array[i]`.  If `betas_array` runs out first, Python raises `IndexError`
mid-loop and the `except` keeps the assignments already made, so the partial
update is preserved. -/
def assign_betas_loop {α : Type} [DecidableEq α] :
    List α → List ℚ → List (α × ℚ) → List (α × ℚ)
  | [], _, b => b
  | _ :: _, [], b => b
  | c :: cs, v :: vs, b => assign_betas_loop cs vs (dictSet b c v)

/-- `_update_betas` (lines 93–109).  The Johansen call on the last
`formation_window` closes is abstracted by its result `johansen_evec`
(= `evec[:, 0]`, or `.error` when `coint_johansen` raises).  On success the
code takes `last_coeff = evec[-1]` (an empty eigenvector would raise
`IndexError`, caught by the same `except`), forms
`betas_array = -evec / last_coeff`, and assigns it column by column.  On any
caught exception the betas dict is left as it was and the failure is logged.
Returns (new betas, log lines). -/
def update_betas (cols : List InstrumentId)
    (johansen_evec : Except String (List ℚ))
    (betas : List (InstrumentId × ℚ)) :
    List (InstrumentId × ℚ) × List String :=
  match johansen_evec with
  | .error e => (betas, ["Failed to update betas: " ++ e])
  | .ok evec =>
    match evec.getLast? with
    | none => (betas, ["Failed to update betas: IndexError"])
    | some last_coeff =>
      (assign_betas_loop cols (evec.map (fun x => -x / last_coeff)) betas, [])

/-- The accumulation loop of `_update_spread` (lines 113–119):
`spread_value += self.betas.get(instrument_id, 0.0) * price` over the
configured legs, returning early (`none`, nothing appended) when
`cache.bar(bar_type, 0)` is `None` for some leg.  The beta lookup uses
`dict.get` with default `0.0`, so a missing beta entry contributes `0`
instead of raising. -/
def spread_value_loop (bars : BarType → List ℚ)
    (betas : List (InstrumentId × ℚ)) :
    List (InstrumentId × BarType) → ℚ → Option ℚ
  | [], acc => some acc
  | p :: rest, acc =>
    match (bars p.2).getLast? with
    | none => none
    | some price =>
      spread_value_loop bars betas rest
        (acc + ((dictGet? betas p.1).getD 0) * price)

/-- The spread value computed by `_update_spread` (lines 113–119): the loop
above starting from `0.0`. -/
def spread_value (cfg : PairTradingStrategyConfig) (bars : BarType → List ℚ)
    (betas : List (InstrumentId × ℚ)) : Option ℚ :=
  spread_value_loop bars betas cfg.bar_type 0

/-- `_update_spread` (lines 111–120): append the computed spread value to the
`maxlen = formation_window` deque, or leave the deque unchanged when a latest
bar is missing. -/
def update_spread (cfg : PairTradingStrategyConfig) (bars : BarType → List ℚ)
    (betas : List (InstrumentId × ℚ)) (spread : List ℚ) : List ℚ :=
  match spread_value cfg bars betas with
  | none => spread
  | some v => dequeAppend cfg.formation_window spread v

/-- The four possible decisions of the signal block (lines 72–80), named as
in the spec: `open_positions(OrderSide.SELL)` is the short-spread entry,
`open_positions(OrderSide.BUY)` the long-spread entry,
`_close_all_positions()` the exit, and falling through every branch is HOLD. -/
inductive Signal where
  | HOLD
  | ENTER_LONG_SPREAD
  | ENTER_SHORT_SPREAD
  | EXIT
deriving DecidableEq, Repr

/-- The decision taken by lines 72–80 as a function of the open-position flag
and the z-score: if positions are open, exit when `abs(z) <
exit_zscore_threshold`, otherwise hold; if flat, enter short when
`z > zscore_threshold`, enter long when `z < -zscore_threshold`, otherwise
hold. -/
def signalOf (cfg : PairTradingStrategyConfig) (hasOpen : Bool) (z : ℚ) :
    Signal :=
  if hasOpen then
    if |z| < cfg.exit_zscore_threshold then Signal.EXIT else Signal.HOLD
  else
    if cfg.zscore_threshold < z then Signal.ENTER_SHORT_SPREAD
    else if z < -cfg.zscore_threshold then Signal.ENTER_LONG_SPREAD
    else Signal.HOLD

/-- Position-state evolution between bars, assuming entries fill and exits
flatten (the position ledger itself is external): an entry opens, an exit
flattens, a hold changes nothing. -/
def nextOpen (hasOpen : Bool) : Signal → Bool
  | Signal.EXIT => false
  | Signal.ENTER_LONG_SPREAD => true
  | Signal.ENTER_SHORT_SPREAD => true
  | Signal.HOLD => hasOpen

/-- Feed a z-score sequence through the decision of lines 72–80, threading
the open-position flag. -/
def runSignals (cfg : PairTradingStrategyConfig) (hasOpen : Bool) :
    List ℚ → List Signal
  | [] => []
  | z :: zs =>
    let s := signalOf cfg hasOpen z
    s :: runSignals cfg (nextOpen hasOpen s) zs

/-- The spec's §4.4 transition rules, written from the spec's words (for
comparison with `signalOf`, which is written from the code): rules evaluated
in priority order — (1) in a position and `|z| < exit` ⇒ EXIT; (2) flat and
`z > entry` ⇒ ENTER_SHORT_SPREAD; (3) flat and `z < -entry` ⇒
ENTER_LONG_SPREAD; (4) otherwise HOLD. -/
def specSignal (entry exitThreshold : ℚ) (hasOpen : Bool) (z : ℚ) : Signal :=
  if hasOpen ∧ |z| < exitThreshold then Signal.EXIT
  else if (¬ hasOpen) ∧ entry < z then Signal.ENTER_SHORT_SPREAD
  else if (¬ hasOpen) ∧ z < -entry then Signal.ENTER_LONG_SPREAD
  else Signal.HOLD

/-- The quantity expression on line 138, verbatim:
`(cache.bar(bar_type).close / (capital_to_risk / 2)) * beta *
long_short_ratio`.  (The result is bound to a local that the rest of
`open_positions` never reads.) -/
def open_position_quantity (price capital_to_risk beta long_short_frac : ℚ) :
    ℚ :=
  price / (capital_to_risk / 2) * beta * long_short_frac

/-- The spec's §4.5 sizing formula, written from the spec's words (for
comparison with `open_position_quantity`, which is written from the code):
per-leg notional = capital_to_risk / 2, quantity = (notional / price) * beta. -/
def spec_leg_quantity (capital_to_risk price beta : ℚ) : ℚ :=
  (capital_to_risk / 2) / price * beta

/-- `cache.bar(bar_type).close` where the cached bar may be `None`
(attribute access on `None` raises). -/
def barCloseE (latest : Option ℚ) : Except String ℚ :=
  match latest with
  | none => .error "AttributeError: NoneType has no attribute close"
  | some x => .ok x

/-- The per-leg loop of `open_positions` (lines 136–140): for each configured
leg, read `betas[_instrument_id]` (a raising dict access) and
`cache.bar(bar_type).close` (raising when the cached bar is `None`), compute
the line-138 quantity into a local that is never read again, choose `BUY` iff
`beta > 0`, and submit a market order whose quantity is
`abs(instrument1.maquantity)` — the same value for every leg.  The submitted
orders are collected in loop order. -/
def open_positions_loop (env : BarEnv) (betas : List (InstrumentId × ℚ))
    (capital_to_risk long_short_frac : ℚ) :
    List (InstrumentId × BarType) → Except String (List Order)
  | [] => .ok []
  | p :: rest =>
    (dictGetE betas p.1).bind (fun beta =>
      (barCloseE ((env.bars p.2).getLast?)).bind (fun price =>
        let quantity :=
          open_position_quantity price capital_to_risk beta long_short_frac
        let order_side :=
          if 0 < beta then OrderSide.BUY else OrderSide.SELL
        (open_positions_loop env betas capital_to_risk long_short_frac
            rest).bind (fun os =>
          .ok ({ instrument_id := p.1
                 side := order_side
                 quantity := |env.maquantity| } :: os))))

/-- `open_positions` (lines 126–140).  `long_short_ratio` is `1` for BUY and
`-1` for SELL; `capital_to_risk = capital_to_risk_ratio * current_equity`;
then the per-leg loop runs over `config.bar_type.items()`. -/
def open_positions (cfg : PairTradingStrategyConfig) (env : BarEnv)
    (betas : List (InstrumentId × ℚ)) (orderside : OrderSide) :
    Except String (List Order) :=
  let long_short_frac : ℚ := if orderside = OrderSide.BUY then 1 else -1
  let current_equity := env.equity
  let capital_to_risk := cfg.capital_to_risk_ratio * current_equity
  open_positions_loop env betas capital_to_risk long_short_frac cfg.bar_type

/-- `on_bar` (lines 55–91).  In order: skip the bar when some leg has fewer
than `formation_window` cached bars; `_update_betas`; `_update_spread`;
return when the spread deque is not yet full; return when the sample standard
deviation is zero (guard embedded as `sampleVar = 0`); compute the z-score
(`sqrtQ` supplies the square root inside `np.std`); run the signal block of
lines 72–80; finally append one diagnostic row — whose third *and* fourth
entries both read `self.betas[self.config.instrument_id_1]` (lines 85–86) —
and record the bar's outputs.  Uncaught exceptions (`KeyError` from raising
dict reads, `AttributeError` from a `None` bar) propagate as `.error`. -/
def on_bar (cfg : PairTradingStrategyConfig) (sqrtQ : ℚ → ℚ) (env : BarEnv)
    (st : StratState) : Except String (StratState × BarOutput) :=
  if ¬ has_enough_bars cfg env.bars then .ok (st, {})
  else
    let ub := update_betas (cfg.bar_type.map Prod.fst) env.johansen st.betas
    let betas1 := ub.1
    let logs1 := ub.2
    let spread1 := update_spread cfg env.bars betas1 st.spread
    if spread1.length < cfg.formation_window then
      .ok ({ st with betas := betas1, spread := spread1 }, { logs := logs1 })
    else
      let mean_spread := listMean spread1
      let var_spread := sampleVar spread1
      if var_spread = 0 then
        .ok ({ st with betas := betas1, spread := spread1 }, { logs := logs1 })
      else
        let last := spread1.getLast?.getD 0
        let z := (last - mean_spread) / sqrtQ var_spread
        let act : Except String (List Order × Bool) :=
          match signalOf cfg env.hasOpen z with
          | Signal.EXIT => .ok ([], true)
          | Signal.ENTER_SHORT_SPREAD =>
            (open_positions cfg env betas1 OrderSide.SELL).map
              (fun os => (os, false))
          | Signal.ENTER_LONG_SPREAD =>
            (open_positions cfg env betas1 OrderSide.BUY).map
              (fun os => (os, false))
          | Signal.HOLD => .ok ([], false)
        act.bind (fun oc =>
          (dictGetE cfg.bar_type cfg.instrument_id_1).bind (fun bt1 =>
            (dictGetE cfg.bar_type cfg.instrument_id_2).bind (fun bt2 =>
              (dictGetE betas1 cfg.instrument_id_1).bind (fun b1 =>
                (dictGetE betas1 cfg.instrument_id_1).bind (fun b1again =>
                  let row : DiagRow :=
                    { price_1 := (env.bars bt1).getLast?
                      price_2 := (env.bars bt2).getLast?
                      beta_1 := b1
                      beta_2 := b1again
                      spread := last
                      z_score := z }
                  .ok ({ st with
                          betas := betas1
                          spread := spread1
                          calc_pd := st.calc_pd ++ [row] },
                        { orders := oc.1
                          closedAll := oc.2
                          zScore := some z
                          logs := logs1 }))))))

/-- Process a sequence of bar events through `on_bar`, threading the
strategy state and collecting each bar's outputs. -/
def run_bars (cfg : PairTradingStrategyConfig) (sqrtQ : ℚ → ℚ) :
    List BarEnv → StratState → Except String (StratState × List BarOutput)
  | [], st => .ok (st, [])
  | e :: es, st =>
    (on_bar cfg sqrtQ e st).bind (fun r =>
      (run_bars cfg sqrtQ es r.1).bind (fun rs =>
        .ok (rs.1, r.2 :: rs.2)))

/-! ## Concrete fixtures for scenario evaluations -/

/-- Square-root stand-in for concrete evaluations.  No claim depends on the
numeric value of a nonzero standard deviation, only on its zero test, so any
function with `sq 0 = 0` serves as the `sqrtQ` argument of `on_bar`. -/
def sq01 : ℚ → ℚ := fun v => if v = 0 then 0 else 1

/-- Two-leg configuration with the spec-scenario thresholds
`entry = 2.0`, `exit = 0.5`. -/
def cfgThresholds : PairTradingStrategyConfig :=
  { instrument_id_1 := "A"
    instrument_id_2 := "B"
    bar_type := [("A", "btA"), ("B", "btB")]
    zscore_threshold := 2
    exit_zscore_threshold := 1/2 }

/-- Two-leg configuration with all defaults (in particular
`capital_to_risk_ratio = 0.01`). -/
def cfgSize : PairTradingStrategyConfig :=
  { instrument_id_1 := "A"
    instrument_id_2 := "B"
    bar_type := [("A", "btA"), ("B", "btB")] }

/-- Sizing scenario: latest closes 100 and 50, equity 100000 (so
`capital_to_risk = 0.01 * 100000 = 1000`), `instrument1.maquantity = 3`. -/
def envSize : BarEnv :=
  { bars := fun bt =>
      if bt = "btA" then [100] else if bt = "btB" then [50] else []
    johansen := .error "not estimated"
    hasOpen := false
    equity := 100000
    maquantity := 3 }

/-- Sizing scenario betas `(1.0, -2.0)`. -/
def betasSize : List (InstrumentId × ℚ) := [("A", 1), ("B", -2)]

/-- Constant-spread scenario config: `formation_window = 5`,
thresholds 2.0 / 0.5. -/
def cfgW5 : PairTradingStrategyConfig :=
  { instrument_id_1 := "A"
    instrument_id_2 := "B"
    bar_type := [("A", "btA"), ("B", "btB")]
    formation_window := 5
    zscore_threshold := 2
    exit_zscore_threshold := 1/2 }

/-- Leg A closes of the constant-spread scenario. -/
def closesA : List ℚ := [1, 2, 3, 4, 5]

/-- Leg B closes of the constant-spread scenario. -/
def closesB : List ℚ := [2, 4, 6, 8, 10]

/-- Cache contents after `k` bars of the constant-spread scenario:
leg A closes `1, 2, …, k`, leg B closes `2, 4, …, 2k`. -/
def barsUpTo (k : Nat) : BarType → List ℚ := fun bt =>
  if bt = "btA" then closesA.take k
  else if bt = "btB" then closesB.take k
  else []

/-- The bar event at step `k` of the constant-spread scenario (the Johansen
call fails each bar, so the betas stay as they are; the account is flat). -/
def envAt (k : Nat) : BarEnv :=
  { bars := barsUpTo k
    johansen := .error "singular matrix"
    hasOpen := false
    equity := 0
    maquantity := 0 }

/-- The five bar events of the constant-spread scenario. -/
def envsConst : List BarEnv := [envAt 1, envAt 2, envAt 3, envAt 4, envAt 5]

/-- Strategy state holding the scenario betas `(1, -0.5)` and an empty
spread deque. -/
def stHalfBeta : StratState :=
  { spread := [], betas := [("A", 1), ("B", -1/2)], calc_pd := [] }

/-- Strategy state holding the scenario betas `(1, -0.5)` and a spread deque
already holding four zero spreads, so the fifth bar fills the window. -/
def stPrefilled : StratState :=
  { spread := [0, 0, 0, 0], betas := [("A", 1), ("B", -1/2)], calc_pd := [] }

/-- Diagnostic-row scenario config: `formation_window = 2` and an entry
threshold high enough that the bar holds. -/
def cfgDiag : PairTradingStrategyConfig :=
  { instrument_id_1 := "A"
    instrument_id_2 := "B"
    bar_type := [("A", "btA"), ("B", "btB")]
    formation_window := 2
    zscore_threshold := 100
    exit_zscore_threshold := 1/2 }

/-- Diagnostic-row scenario bar event: leg A closes `[1, 2]`, leg B closes
`[1, 3]`, Johansen fails (betas stay at `(1, -1)`), flat account. -/
def envDiag : BarEnv :=
  { bars := fun bt =>
      if bt = "btA" then [1, 2] else if bt = "btB" then [1, 3] else []
    johansen := .error "x"
    hasOpen := false
    equity := 0
    maquantity := 0 }

/-- Diagnostic-row scenario state: betas `(1, -1)` (the initial values) and
one prior spread value `4`, so this bar fills the window with a nonzero
sample variance. -/
def stDiag : StratState :=
  { spread := [4], betas := [("A", 1), ("B", -1)], calc_pd := [] }

/-! ## Claims -/

/-- C1: for every bar with a defined z-score, the decision of lines 72–80
follows the spec's §4.4 priority order — it equals the rule-by-rule spec
transition function for every configuration, position flag and z-score.
Consequently an ENTER is never emitted while a position is open and an EXIT
is never emitted while flat.  And from FLAT with `entry_threshold = 2.0`,
`exit_threshold = 0.5`, the z-score sequence `[0.1, 2.3, 1.9, 0.3]` yields
`[HOLD, ENTER_SHORT_SPREAD, HOLD, EXIT]`. -/
theorem claim1_signal_priority :
    (∀ (cfg : PairTradingStrategyConfig) (hasOpen : Bool) (z : ℚ),
      signalOf cfg hasOpen z =
        specSignal cfg.zscore_threshold cfg.exit_zscore_threshold hasOpen z)
    ∧ (∀ (cfg : PairTradingStrategyConfig) (z : ℚ),
        signalOf cfg true z ≠ Signal.ENTER_SHORT_SPREAD
        ∧ signalOf cfg true z ≠ Signal.ENTER_LONG_SPREAD
        ∧ signalOf cfg false z ≠ Signal.EXIT)
    ∧ runSignals cfgThresholds false [1/10, 23/10, 19/10, 3/10] =
        [Signal.HOLD, Signal.ENTER_SHORT_SPREAD, Signal.HOLD, Signal.EXIT] := by
  refine ⟨?_, ?_, ?_⟩
  · intro cfg hasOpen z
    cases hasOpen <;> simp [signalOf, specSignal]
  · intro cfg z
    refine ⟨?_, ?_, ?_⟩ <;> simp only [signalOf] <;>
      split_ifs <;> simp_all
  · norm_num [runSignals, signalOf, nextOpen, cfgThresholds,
      abs_eq_max_neg, max_def]

/-- C2 (code-bug exhibit): at the spec's sizing scenario —
`capital_to_risk = 1000` (ratio 0.01 × equity 100000), betas `(1.0, -2.0)`,
prices `(100, 50)`, LONG_SPREAD entry — the claim demands leg quantities
5 and 20.  The code's line-138 expression inverts the claimed formula
(`price / (capital_to_risk/2) * beta` gives 1/5 for leg 1, not 5), and the
order actually submitted carries `abs(instrument1.maquantity)` (here 3) for
both legs, ignoring the computed quantity entirely. -/
theorem claim2_sizing_formula_bug :
    open_positions cfgSize envSize betasSize OrderSide.BUY =
      .ok [{ instrument_id := "A", side := OrderSide.BUY, quantity := 3 },
           { instrument_id := "B", side := OrderSide.SELL, quantity := 3 }]
    ∧ open_position_quantity 100 1000 1 1 = 1/5
    ∧ open_position_quantity 50 1000 (-2) 1 = -1/5
    ∧ spec_leg_quantity 1000 100 1 = 5
    ∧ spec_leg_quantity 1000 50 (-2) = -20
    ∧ (1/5 : ℚ) ≠ 5 ∧ (3 : ℚ) ≠ 5 ∧ (3 : ℚ) ≠ 20 := by
  refine ⟨?_, by norm_num [open_position_quantity],
    by norm_num [open_position_quantity],
    by norm_num [spec_leg_quantity], by norm_num [spec_leg_quantity],
    by norm_num, by norm_num, by norm_num⟩
  have h1 : (0 : ℚ) < 1 := by norm_num
  have h2 : ¬ (0 : ℚ) < -2 := by norm_num
  have h3 : |(3 : ℚ)| = 3 := by norm_num
  simp [open_positions, open_positions_loop, cfgSize, envSize, betasSize,
    dictGetE, dictGet?, barCloseE, Except.bind, h1, h2, h3]

/-- C3 counterexample: a SHORT_SPREAD entry (`open_positions(OrderSide.SELL)`)
with betas `(1.0, -2.0)` submits BUY for the positive-beta leg and SELL for
the negative-beta leg — exactly what it submits for a LONG_SPREAD entry.  The
claim says a short-spread entry inverts both sides (SELL the positive-beta
leg), which is false at this input. -/
theorem claim3_counterexample :
    open_positions cfgSize envSize betasSize OrderSide.SELL =
      .ok [{ instrument_id := "A", side := OrderSide.BUY, quantity := 3 },
           { instrument_id := "B", side := OrderSide.SELL, quantity := 3 }]
    ∧ OrderSide.BUY ≠ OrderSide.SELL := by
  refine ⟨?_, by decide⟩
  have h1 : (0 : ℚ) < 1 := by norm_num
  have h2 : ¬ (0 : ℚ) < -2 := by norm_num
  have h3 : |(3 : ℚ)| = 3 := by norm_num
  simp [open_positions, open_positions_loop, cfgSize, envSize, betasSize,
    dictGetE, dictGet?, barCloseE, Except.bind, h1, h2, h3]

/-- C3 amended: on every ENTER signal the side of each leg's order depends
only on the sign of its beta — positive-beta legs are bought, other legs sold
— identically for LONG_SPREAD and SHORT_SPREAD entries; the signal direction
never inverts the sides (the submitted orders are identical for the two
directions, since the direction only enters the unused line-138 local). -/
theorem claim3_amended_side_from_beta_only :
    (∀ (cfg : PairTradingStrategyConfig) (env : BarEnv)
        (betas : List (InstrumentId × ℚ)) (dir1 dir2 : OrderSide),
      open_positions cfg env betas dir1 = open_positions cfg env betas dir2)
    ∧ (∀ (cfg : PairTradingStrategyConfig) (env : BarEnv)
        (betas : List (InstrumentId × ℚ)) (i1 i2 : InstrumentId)
        (bt1 bt2 : BarType) (b1 b2 p1 p2 : ℚ) (dir : OrderSide),
        cfg.bar_type = [(i1, bt1), (i2, bt2)] →
        dictGetE betas i1 = .ok b1 →
        dictGetE betas i2 = .ok b2 →
        (env.bars bt1).getLast? = some p1 →
        (env.bars bt2).getLast? = some p2 →
        open_positions cfg env betas dir =
          .ok [{ instrument_id := i1
                 side := if 0 < b1 then OrderSide.BUY else OrderSide.SELL
                 quantity := |env.maquantity| },
               { instrument_id := i2
                 side := if 0 < b2 then OrderSide.BUY else OrderSide.SELL
                 quantity := |env.maquantity| }]) := by
  have loop_frac : ∀ (env : BarEnv) (betas : List (InstrumentId × ℚ))
      (c f f' : ℚ) (legs : List (InstrumentId × BarType)),
      open_positions_loop env betas c f legs =
        open_positions_loop env betas c f' legs := by
    intro env betas c f f' legs
    induction legs with
    | nil => rfl
    | cons p rest ih => simp only [open_positions_loop, ih]
  constructor
  · intro cfg env betas dir1 dir2
    simp only [open_positions]
    exact loop_frac env betas _ _ _ cfg.bar_type
  · intro cfg env betas i1 i2 bt1 bt2 b1 b2 p1 p2 dir hbt hb1 hb2 hp1 hp2
    simp [open_positions, open_positions_loop, hbt, hb1, hb2, hp1, hp2,
      barCloseE, Except.bind]

/-- C3 amended, witness: at the sizing scenario, a SHORT_SPREAD entry yields
exactly the orders predicted by the beta-sign rule. -/
theorem claim3_amended_witness :
    cfgSize.bar_type = [("A", "btA"), ("B", "btB")]
    ∧ dictGetE betasSize "A" = .ok 1
    ∧ dictGetE betasSize "B" = .ok (-2)
    ∧ open_positions cfgSize envSize betasSize OrderSide.SELL =
        .ok [{ instrument_id := "A"
               side := if (0 : ℚ) < 1 then OrderSide.BUY else OrderSide.SELL
               quantity := |envSize.maquantity| },
             { instrument_id := "B"
               side := if (0 : ℚ) < -2 then OrderSide.BUY else OrderSide.SELL
               quantity := |envSize.maquantity| }] := by
  refine ⟨rfl, by simp [dictGetE, dictGet?, betasSize],
    by simp [dictGetE, dictGet?, betasSize], ?_⟩
  exact claim3_amended_side_from_beta_only.2 cfgSize envSize betasSize
    "A" "B" "btA" "btB" 1 (-2) 100 50 OrderSide.SELL rfl
    (by simp [dictGetE, dictGet?, betasSize])
    (by simp [dictGetE, dictGet?, betasSize])
    (by simp [envSize]) (by simp [envSize])

/-- C4 counterexample: constructing the configuration with
`entry_threshold = 0.5 ≤ exit_threshold = 1.0` succeeds —
`PairTradingStrategyConfig` contains no validator, so the claimed
construction-time rejection does not happen. -/
theorem claim4_counterexample :
    (mkPairTradingStrategyConfig "A" "B" [("A", "btA"), ("B", "btB")] 200
        (1/2) 1 (1/100)).isOk = true := rfl

/-- C4 amended: construction never fails.  `PairTradingStrategyConfig`
performs no validation of the thresholds (nor of the window or legs): every
parameter combination — including `entry_threshold ≤ exit_threshold` and
non-positive thresholds — is accepted at construction, and the strategy
initializes on the resulting configuration; misconfiguration is deferred to
runtime behavior. -/
theorem claim4_amended_no_validation :
    ∀ (id1 id2 : InstrumentId) (bt : List (InstrumentId × BarType))
      (w : Nat) (entry exitThreshold frac : ℚ),
      (mkPairTradingStrategyConfig id1 id2 bt w entry exitThreshold
          frac).isOk = true
      ∧ ∃ cfg, mkPairTradingStrategyConfig id1 id2 bt w entry exitThreshold
            frac = .ok cfg
          ∧ strategy_init cfg =
              { spread := []
                betas := [(id1, 1), (id2, -1)]
                calc_pd := [] } := by
  intro id1 id2 bt w entry exitThreshold frac
  exact ⟨rfl, _, rfl, rfl⟩

/-- C5: on every bar whose full spread window has zero Bessel-corrected
sample variance (equivalently, zero sample standard deviation), `on_bar`
returns before computing a z-score: no exception, no division, no z-score,
no order, no position close, no diagnostic row — only the betas/spread state
update already performed.  And the constant-spread scenario (W = 5, leg A
closes 1…5, leg B closes 2…10, betas (1, −0.5), so every spread value is 0)
produces five bars with no orders, no close and no z-score. -/
theorem claim5_degenerate_spread_holds :
    (∀ (cfg : PairTradingStrategyConfig) (sqrtQ : ℚ → ℚ) (env : BarEnv)
        (st : StratState),
      has_enough_bars cfg env.bars = true →
      ¬ (update_spread cfg env.bars
            (update_betas (cfg.bar_type.map Prod.fst) env.johansen
              st.betas).1 st.spread).length < cfg.formation_window →
      sampleVar (update_spread cfg env.bars
            (update_betas (cfg.bar_type.map Prod.fst) env.johansen
              st.betas).1 st.spread) = 0 →
      on_bar cfg sqrtQ env st =
        .ok ({ st with
                betas := (update_betas (cfg.bar_type.map Prod.fst)
                  env.johansen st.betas).1
                spread := update_spread cfg env.bars
                  (update_betas (cfg.bar_type.map Prod.fst) env.johansen
                    st.betas).1 st.spread },
             { logs := (update_betas (cfg.bar_type.map Prod.fst)
                 env.johansen st.betas).2 }))
    ∧ (run_bars cfgW5 sq01 envsConst stHalfBeta).map
        (fun r => r.2.map (fun o => (o.orders, o.closedAll, o.zScore))) =
        .ok (List.replicate 5 ([], false, none)) := by
  constructor
  · intro cfg sqrtQ env st h1 h2 h3
    simp [on_bar, h1, h2, h3]
  · simp [run_bars, on_bar, envsConst, envAt, barsUpTo, closesA, closesB,
      cfgW5, stHalfBeta, has_enough_bars, update_betas, update_spread,
      spread_value, spread_value_loop, dequeAppend, dictGet?, Except.bind, Except.map,
      List.replicate]

/-- C5 witness: the fifth constant-spread bar on a pre-filled window of four
zero spreads — the window fills with five zeros, the sample variance is 0,
and the bar resolves with no z-score and no order activity. -/
theorem claim5_witness :
    has_enough_bars cfgW5 (envAt 5).bars = true
    ∧ sampleVar (update_spread cfgW5 (envAt 5).bars
        (update_betas (cfgW5.bar_type.map Prod.fst) (envAt 5).johansen
          stPrefilled.betas).1 stPrefilled.spread) = 0
    ∧ on_bar cfgW5 sq01 (envAt 5) stPrefilled =
        .ok ({ stPrefilled with
                betas := (update_betas (cfgW5.bar_type.map Prod.fst)
                  (envAt 5).johansen stPrefilled.betas).1
                spread := update_spread cfgW5 (envAt 5).bars
                  (update_betas (cfgW5.bar_type.map Prod.fst)
                    (envAt 5).johansen stPrefilled.betas).1
                  stPrefilled.spread },
             { logs := (update_betas (cfgW5.bar_type.map Prod.fst)
                 (envAt 5).johansen stPrefilled.betas).2 }) := by
  refine ⟨by simp [has_enough_bars, cfgW5, envAt, barsUpTo, closesA,
      closesB], ?_, ?_⟩
  · simp [update_spread, spread_value, spread_value_loop, update_betas, dequeAppend,
      sampleVar, listMean, dictGet?, cfgW5, envAt, barsUpTo, closesA,
      closesB, stPrefilled] <;> norm_num
  · exact claim5_degenerate_spread_holds.1 cfgW5 sq01 (envAt 5) stPrefilled
      (by simp [has_enough_bars, cfgW5, envAt, barsUpTo, closesA, closesB])
      (by simp [update_spread, spread_value, spread_value_loop, update_betas, dequeAppend,
        dictGet?, cfgW5, envAt, barsUpTo, closesA, closesB, stPrefilled])
      (by simp [update_spread, spread_value, spread_value_loop, update_betas, dequeAppend,
        sampleVar, listMean, dictGet?, cfgW5, envAt, barsUpTo, closesA,
        closesB, stPrefilled] <;> norm_num)

/-- C8: a bar for which some leg has fewer than `formation_window` cached
closes is silently skipped — state unchanged, no beta update, no spread
append, no signal, no log; and whenever (after the updates) the spread deque
still holds fewer than `formation_window` values, the bar resolves with no
z-score and no order activity. -/
theorem claim8_insufficient_data_skips :
    (∀ (cfg : PairTradingStrategyConfig) (sqrtQ : ℚ → ℚ) (env : BarEnv)
        (st : StratState),
      has_enough_bars cfg env.bars = false →
      on_bar cfg sqrtQ env st = .ok (st, {}))
    ∧ (∀ (cfg : PairTradingStrategyConfig) (sqrtQ : ℚ → ℚ) (env : BarEnv)
        (st : StratState),
      has_enough_bars cfg env.bars = true →
      (update_spread cfg env.bars
          (update_betas (cfg.bar_type.map Prod.fst) env.johansen
            st.betas).1 st.spread).length < cfg.formation_window →
      on_bar cfg sqrtQ env st =
        .ok ({ st with
                betas := (update_betas (cfg.bar_type.map Prod.fst)
                  env.johansen st.betas).1
                spread := update_spread cfg env.bars
                  (update_betas (cfg.bar_type.map Prod.fst) env.johansen
                    st.betas).1 st.spread },
             { logs := (update_betas (cfg.bar_type.map Prod.fst)
                 env.johansen st.betas).2 })) := by
  constructor
  · intro cfg sqrtQ env st h1
    simp [on_bar, h1]
  · intro cfg sqrtQ env st h1 h2
    simp [on_bar, h1, h2]

/-- C8 witness: with W = 5, the third constant-spread bar (only three closes
cached) is skipped outright, and the fifth bar (window full in the cache but
the spread deque holding a single value) produces no z-score and no order. -/
theorem claim8_witness :
    has_enough_bars cfgW5 (envAt 3).bars = false
    ∧ on_bar cfgW5 sq01 (envAt 3) stHalfBeta = .ok (stHalfBeta, {})
    ∧ has_enough_bars cfgW5 (envAt 5).bars = true
    ∧ on_bar cfgW5 sq01 (envAt 5) stHalfBeta =
        .ok ({ stHalfBeta with
                betas := (update_betas (cfgW5.bar_type.map Prod.fst)
                  (envAt 5).johansen stHalfBeta.betas).1
                spread := update_spread cfgW5 (envAt 5).bars
                  (update_betas (cfgW5.bar_type.map Prod.fst)
                    (envAt 5).johansen stHalfBeta.betas).1
                  stHalfBeta.spread },
             { logs := (update_betas (cfgW5.bar_type.map Prod.fst)
                 (envAt 5).johansen stHalfBeta.betas).2 }) := by
  have ha : has_enough_bars cfgW5 (envAt 3).bars = false := by
    simp [has_enough_bars, cfgW5, envAt, barsUpTo, closesA, closesB]
  have hb : has_enough_bars cfgW5 (envAt 5).bars = true := by
    simp [has_enough_bars, cfgW5, envAt, barsUpTo, closesA, closesB]
  have hc : (update_spread cfgW5 (envAt 5).bars
      (update_betas (cfgW5.bar_type.map Prod.fst) (envAt 5).johansen
        stHalfBeta.betas).1 stHalfBeta.spread).length <
      cfgW5.formation_window := by
    simp [update_spread, spread_value, spread_value_loop, update_betas, dequeAppend,
      dictGet?, cfgW5, envAt, barsUpTo, closesA, closesB, stHalfBeta]
  exact ⟨ha, claim8_insufficient_data_skips.1 cfgW5 sq01 (envAt 3)
      stHalfBeta ha, hb,
    claim8_insufficient_data_skips.2 cfgW5 sq01 (envAt 5) stHalfBeta hb hc⟩

/-- C6: a re-estimation whose Johansen computation raises (any exception
caught by the `except` on line 108) leaves every entry of the betas dict
exactly as it was and logs the failure; and the exception never escapes
`_update_betas` into the bar-processing pass — any result `on_bar` returns
after a failed estimation carries the pre-bar betas unchanged. -/
theorem claim6_estimation_failure_keeps_betas :
    (∀ (cols : List InstrumentId) (e : String)
        (betas : List (InstrumentId × ℚ)),
      update_betas cols (.error e) betas =
        (betas, ["Failed to update betas: " ++ e]))
    ∧ (∀ (cfg : PairTradingStrategyConfig) (sqrtQ : ℚ → ℚ) (env : BarEnv)
        (st : StratState) (e : String) (st' : StratState) (out : BarOutput),
        env.johansen = .error e →
        on_bar cfg sqrtQ env st = .ok (st', out) →
        st'.betas = st.betas) := by
  have h1 : ∀ (cols : List InstrumentId) (e : String)
      (betas : List (InstrumentId × ℚ)),
      update_betas cols (.error e) betas =
        (betas, ["Failed to update betas: " ++ e]) := by
    intro cols e betas; rfl
  refine ⟨h1, ?_⟩
  intro cfg sqrtQ env st e st' out herr hok
  simp only [on_bar, herr, h1, Except.bind] at hok
  repeat' split at hok
  all_goals try simp_all
  all_goals (obtain ⟨h2, -⟩ := hok; exact (congrArg StratState.betas h2).symm)

/-- C6 witness: the fifth constant-spread bar fails its estimation
("singular matrix"); `_update_betas` returns the prior betas with a log
line, and the bar resolves normally with its betas equal to the pre-bar
betas. -/
theorem claim6_witness :
    (envAt 5).johansen = .error "singular matrix"
    ∧ update_betas ["A", "B"] (.error "singular matrix") stHalfBeta.betas =
        (stHalfBeta.betas, ["Failed to update betas: singular matrix"])
    ∧ (StratState.mk [0] stHalfBeta.betas []).betas = stHalfBeta.betas := by
  refine ⟨rfl, claim6_estimation_failure_keeps_betas.1 ["A", "B"]
    "singular matrix" stHalfBeta.betas, ?_⟩
  exact claim6_estimation_failure_keeps_betas.2 cfgW5 sq01 (envAt 5)
    stHalfBeta "singular matrix" (StratState.mk [0] stHalfBeta.betas [])
    { logs := ["Failed to update betas: singular matrix"] } rfl
    (by simp [on_bar, has_enough_bars, update_betas, update_spread,
        spread_value, spread_value_loop, dequeAppend, dictGet?, cfgW5,
        envAt, barsUpTo, closesA, closesB, stHalfBeta] <;> norm_num)

/-- C7: the betas mapping starts as `{id_1: 1.0, id_2: -1.0}`, and a
successful re-estimation on a two-leg configuration stores, per instrument,
the leading Johansen eigenvector divided by the negation of its last
component — one entry per pair instrument in configuration order, with the
last instrument's beta exactly −1 — whenever that last component is
nonzero. -/
theorem claim7_beta_normalization :
    (∀ cfg : PairTradingStrategyConfig,
      (strategy_init cfg).betas =
        [(cfg.instrument_id_1, 1), (cfg.instrument_id_2, -1)])
    ∧ (∀ (i1 i2 : InstrumentId) (x y a b : ℚ), i1 ≠ i2 → b ≠ 0 →
        update_betas [i1, i2] (.ok [a, b]) [(i1, x), (i2, y)] =
          ([(i1, a / -b), (i2, -1)], [])) := by
  constructor
  · intro cfg; rfl
  · intro i1 i2 x y a b h12 hb
    have h21 : ¬ i2 = i1 := fun h => h12 h.symm
    simp [update_betas, assign_betas_loop, dictSet, dictGet?, h12, h21,
      neg_div, div_neg, div_self hb]

/-- C7 witness: a successful estimation with eigenvector `(2, −1)` on the
two-leg pair replaces the betas with `(2/1, −1)` — the eigenvector divided
by the negation of its last component, reference beta exactly −1. -/
theorem claim7_witness :
    (("A" : InstrumentId) ≠ "B") ∧ ((-1 : ℚ) ≠ 0)
    ∧ update_betas ["A", "B"] (.ok [2, -1]) [("A", 1), ("B", -1)] =
        ([("A", 2 / -(-1)), ("B", -1)], []) := by
  exact ⟨by decide, by norm_num,
    claim7_beta_normalization.2 "A" "B" 1 (-1) 2 (-1) (by decide)
      (by norm_num)⟩

/-- C9 (code-bug exhibit): the diagnostic frame declares its fourth column
as the leg-2 beta (`beta_{instrument_id_2}`, line 43), but the row appended
on line 86 reads `self.betas[self.config.instrument_id_1]` a second time: on
a processed bar with betas `(1.0, −1.0)` the appended row carries `1.0` in
the `beta_B` column while the leg-2 beta is `−1.0`. -/
theorem claim9_diag_row_beta_bug :
    calc_pd_columns cfgDiag =
      ["price_A", "price_B", "beta_A", "beta_B", "spread", "z_score"]
    ∧ (on_bar cfgDiag sq01 envDiag stDiag).map (fun r => r.1.calc_pd) =
        .ok [{ price_1 := some 2
               price_2 := some 3
               beta_1 := 1
               beta_2 := 1
               spread := -1
               z_score := -(5/2) }]
    ∧ dictGet? stDiag.betas "B" = some (-1)
    ∧ ((1 : ℚ) ≠ -1) := by
  refine ⟨rfl, ?_, by simp [dictGet?, stDiag], by norm_num⟩
  simp [on_bar, has_enough_bars, update_betas, update_spread, spread_value,
    spread_value_loop, dequeAppend, dictGet?, dictGetE, listMean, sampleVar,
    signalOf, sq01, open_positions, open_positions_loop, barCloseE,
    Except.bind, Except.map, cfgDiag, envDiag, stDiag]
  norm_num

/-- Helper for C10: the spread accumulation loop produces a value whenever
every leg has a latest bar, whatever the betas dict contains. -/
theorem spread_value_loop_isSome (bars : BarType → List ℚ)
    (betas : List (InstrumentId × ℚ)) :
    ∀ (legs : List (InstrumentId × BarType)) (acc : ℚ),
      (∀ p ∈ legs, ((bars p.2).getLast?).isSome) →
      (spread_value_loop bars betas legs acc).isSome := by
  intro legs
  induction legs with
  | nil => intro acc _; simp [spread_value_loop]
  | cons p rest ih =>
    intro acc h
    obtain ⟨v, hv⟩ :=
      Option.isSome_iff_exists.mp (h p (List.mem_cons_self p rest))
    simp only [spread_value_loop, hv]
    exact ih _ (fun q hq => h q (List.mem_cons_of_mem _ hq))

/-- Helper for C10: a key absent from a dict is written by appending. -/
theorem dictSet_missing {betas : List (InstrumentId × ℚ)} {i : InstrumentId}
    (h : dictGet? betas i = none) (v : ℚ) :
    dictSet betas i v = betas ++ [(i, v)] := by
  simp [dictSet, h]

/-- Helper for C10: appending an explicit zero entry for a key that was
absent does not change any defaulted-to-zero lookup. -/
theorem dictGet_append_missing {betas : List (InstrumentId × ℚ)}
    {i : InstrumentId} (h : dictGet? betas i = none) (k : InstrumentId) :
    (dictGet? (betas ++ [(i, 0)]) k).getD 0 = (dictGet? betas k).getD 0 := by
  induction betas with
  | nil =>
    by_cases hik : i = k
    · subst hik; simp [dictGet?]
    · simp [dictGet?, hik]
  | cons p rest ih =>
    by_cases hpk : p.1 = k
    · simp [dictGet?, hpk]
    · by_cases hpi : p.1 = i
      · simp [dictGet?, hpi] at h
      · simp only [dictGet?, List.cons_append, if_neg hpk]
        exact ih (by simpa [dictGet?, hpi] using h)

/-- Helper for C10: the spread accumulation loop only reads the betas dict
through defaulted-to-zero lookups, so two dicts with identical defaulted
lookups produce identical results. -/
theorem spread_value_loop_congr (bars : BarType → List ℚ)
    (betas betas' : List (InstrumentId × ℚ))
    (hco : ∀ k, (dictGet? betas' k).getD 0 = (dictGet? betas k).getD 0) :
    ∀ (legs : List (InstrumentId × BarType)) (acc : ℚ),
      spread_value_loop bars betas' legs acc =
        spread_value_loop bars betas legs acc := by
  intro legs
  induction legs with
  | nil => intro acc; rfl
  | cons p rest ih =>
    intro acc
    simp only [spread_value_loop, hco p.1]
    cases (bars p.2).getLast? with
    | none => rfl
    | some price => exact ih _

/-- C10: the beta lookup inside `_update_spread` is total — it uses
`betas.get(instrument_id, 0.0)`, so an instrument absent from the betas dict
contributes `0.0` to the spread instead of raising: whenever every leg has a
latest bar the spread value is computed and appended to the deque, whatever
the betas dict contains, and a dict missing a key behaves exactly like the
same dict with that key set to `0.0`. -/
theorem claim10_total_beta_lookup :
    (∀ (cfg : PairTradingStrategyConfig) (bars : BarType → List ℚ)
        (betas : List (InstrumentId × ℚ)) (sp : List ℚ),
      (∀ p ∈ cfg.bar_type, ((bars p.2).getLast?).isSome) →
      (spread_value cfg bars betas).isSome
      ∧ ∃ v, spread_value cfg bars betas = some v
          ∧ update_spread cfg bars betas sp =
              dequeAppend cfg.formation_window sp v)
    ∧ (∀ (cfg : PairTradingStrategyConfig) (bars : BarType → List ℚ)
        (betas : List (InstrumentId × ℚ)) (i : InstrumentId),
      dictGet? betas i = none →
      spread_value cfg bars (dictSet betas i 0) =
        spread_value cfg bars betas) := by
  constructor
  · intro cfg bars betas sp h
    have hs : (spread_value cfg bars betas).isSome :=
      spread_value_loop_isSome bars betas cfg.bar_type 0 h
    obtain ⟨v, hv⟩ := Option.isSome_iff_exists.mp hs
    exact ⟨hs, v, hv, by simp only [update_spread, hv]⟩
  · intro cfg bars betas i h
    simp only [spread_value, dictSet_missing h 0]
    exact spread_value_loop_congr bars betas (betas ++ [(i, 0)])
      (dictGet_append_missing h) cfg.bar_type 0

/-- C10 witness: with a betas dict holding only leg A, a bar where both legs
have latest closes still computes and appends a spread value, and the dict
behaves exactly like one in which leg B's beta is an explicit `0.0`. -/
theorem claim10_witness :
    (∀ p ∈ cfgSize.bar_type, ((envSize.bars p.2).getLast?).isSome)
    ∧ (spread_value cfgSize envSize.bars [("A", 1)]).isSome
    ∧ (∃ v, spread_value cfgSize envSize.bars [("A", 1)] = some v
        ∧ update_spread cfgSize envSize.bars [("A", 1)] [] =
            dequeAppend cfgSize.formation_window [] v)
    ∧ dictGet? [(("A" : InstrumentId), (1 : ℚ))] "B" = none
    ∧ spread_value cfgSize envSize.bars (dictSet [("A", 1)] "B" 0) =
        spread_value cfgSize envSize.bars [("A", 1)] := by
  have hbars : ∀ p ∈ cfgSize.bar_type,
      ((envSize.bars p.2).getLast?).isSome := by
    simp [cfgSize, envSize]
  have hmiss : dictGet? [(("A" : InstrumentId), (1 : ℚ))] "B" = none := by
    simp [dictGet?]
  obtain ⟨hs, hex⟩ :=
    claim10_total_beta_lookup.1 cfgSize envSize.bars [("A", 1)] [] hbars
  exact ⟨hbars, hs, hex, hmiss,
    claim10_total_beta_lookup.2 cfgSize envSize.bars [("A", 1)] "B" hmiss⟩

end PairTrading
